import Mathlib

/-!
Verification development for the Comics_Sold_Search proxy server.

The definitions below are a shallow embedding of the JavaScript source
(`src/server.js` and its sibling revisions `src/unnamed/part_003`,
`src/unnamed/part_004`).  Network effects are made explicit: every upstream
HTTP exchange becomes an input value (the reply the remote service would
send), and every definition additionally returns the list of upstream
endpoints actually contacted, so that "no network call happens" claims are
statable.  JavaScript machine numbers are modelled as `Nat` (all quantities
involved — HTTP statuses, millisecond clocks, list lengths — are
non-negative integers in the source), and JavaScript `undefined`/`null`
fields as `Option`.
-/

namespace ComicsSold

/-! ## JavaScript helper semantics -/

/-- Truthiness of a JS string-or-undefined value: `undefined`, `null` and
the empty string are falsy. -/
def truthyOpt : Option String → Bool
  | none => false
  | some s => s != ""

/-- JS `a || b` on string-or-undefined values: `a` when truthy, else `b`. -/
def jsOrOptStr (a b : Option String) : Option String :=
  if truthyOpt a then a else b

/-- JS `a || d` where `a` is a possibly-undefined string and `d` a string
default. -/
def jsStrOr (a : Option String) (d : String) : String :=
  match a with
  | none => d
  | some s => if s = "" then d else s

/-- JS `n || d` on numbers: `0` (and `NaN`, not representable here) is
falsy. -/
def jsNumOr (n d : Nat) : Nat := if n = 0 then d else n

/-- The whitespace characters relevant to `String.prototype.trim` that can
occur in the queries this server handles (ASCII whitespace). -/
def jsWhitespace (c : Char) : Bool :=
  c = ' ' || c = '\t' || c = '\n' || c = '\r' || c = '\x0b' || c = '\x0c'

/-- JS `String.prototype.trim`: strip leading and trailing whitespace. -/
def jsTrim (s : String) : String :=
  String.mk (((s.data.dropWhile jsWhitespace).reverse.dropWhile jsWhitespace).reverse)

/-- `pat` is a prefix of `l` (over character lists). -/
def isPrefixList : List Char → List Char → Bool
  | [], _ => true
  | _ :: _, [] => false
  | p :: ps, c :: cs => p = c && isPrefixList ps cs

/-- `l` contains `pat` as a contiguous sublist (JS `String.prototype.includes`). -/
def listContains : List Char → List Char → Bool
  | l, [] => (fun _ => true) l
  | [], _ :: _ => false
  | c :: cs, p :: ps => isPrefixList (p :: ps) (c :: cs) || listContains cs (p :: ps)

/-- JS `s.includes(pat)` on strings. -/
def strContains (s pat : String) : Bool := listContains s.data pat.data

/-- ASCII lower-casing of a string (`String.prototype.toLowerCase` on the
ASCII fragment the matched patterns live in). -/
def toLowerStr (s : String) : String := String.mk (s.data.map Char.toLower)

/-! ## SHA-256 (the digest Node's `crypto.createHash('sha256')` computes)

The webhook handler (`src/server.js` lines 94–101 and the identical
`src/unnamed/part_003` lines 246–257) feeds three strings into one SHA-256
hash object via successive `update` calls and renders the digest with
`digest('hex')`.  The algorithm below is FIPS 180-4 SHA-256 over byte lists,
with 32-bit words as `Nat` reduced modulo `2 ^ 32`, including the streaming
`update` interface so the handler's three-update usage can be embedded
exactly as written. -/

/-- Reduce to a 32-bit word. -/
def w32 (n : Nat) : Nat := n % 4294967296

/-- Right rotation of a 32-bit word by `n` bits. -/
def rotr (n x : Nat) : Nat := w32 ((x >>> n) ||| (x <<< (32 - n)))

/-- SHA-256 `Ch(x, y, z)`; `¬x` is xor with the 32-bit all-ones mask. -/
def shaCh (x y z : Nat) : Nat := (x &&& y) ^^^ ((x ^^^ 4294967295) &&& z)

/-- SHA-256 `Maj(x, y, z)`. -/
def shaMaj (x y z : Nat) : Nat := (x &&& y) ^^^ (x &&& z) ^^^ (y &&& z)

/-- SHA-256 `Σ₀`. -/
def bigSigma0 (x : Nat) : Nat := rotr 2 x ^^^ rotr 13 x ^^^ rotr 22 x

/-- SHA-256 `Σ₁`. -/
def bigSigma1 (x : Nat) : Nat := rotr 6 x ^^^ rotr 11 x ^^^ rotr 25 x

/-- SHA-256 `σ₀`. -/
def smallSigma0 (x : Nat) : Nat := rotr 7 x ^^^ rotr 18 x ^^^ (x >>> 3)

/-- SHA-256 `σ₁`. -/
def smallSigma1 (x : Nat) : Nat := rotr 17 x ^^^ rotr 19 x ^^^ (x >>> 10)

/-- The 64 SHA-256 round constants `K`, written in decimal. -/
def shaK : List Nat :=
  [1116352408, 1899447441, 3049323471, 3921009573, 961987163,
   1508970993, 2453635748, 2870763221, 3624381080, 310598401,
   607225278, 1426881987, 1925078388, 2162078206, 2614888103,
   3248222580, 3835390401, 4022224774, 264347078, 604807628,
   770255983, 1249150122, 1555081692, 1996064986, 2554220882,
   2821834349, 2952996808, 3210313671, 3336571891, 3584528711,
   113926993, 338241895, 666307205, 773529912, 1294757372,
   1396182291, 1695183700, 1986661051, 2177026350, 2456956037,
   2730485921, 2820302411, 3259730800, 3345764771, 3516065817,
   3600352804, 4094571909, 275423344, 430227734, 506948616,
   659060556, 883997877, 958139571, 1322822218, 1537002063,
   1747873779, 1955562222, 2024104815, 2227730452, 2361852424,
   2428436474, 2756734187, 3204031479, 3329325298]

/-- The SHA-256 initial hash value, written in decimal. -/
def shaH0 : List Nat :=
  [1779033703, 3144134277, 1013904242, 2773480762,
   1359893119, 2600822924, 528734635, 1541459225]

/-- Pack a byte list into big-endian 32-bit words (4 bytes per word). -/
def bigEndianWords : List Nat → List Nat
  | b0 :: b1 :: b2 :: b3 :: rest =>
      (b0 * 16777216 + b1 * 65536 + b2 * 256 + b3) :: bigEndianWords rest
  | _ => []

/-- Extend the 16 block words to the 64-entry message schedule. -/
def msgSchedule (block : List Nat) : List Nat :=
  (List.range 48).foldl
    (fun ws i =>
      ws ++ [w32 (smallSigma1 (ws.getD (i + 14) 0) + ws.getD (i + 9) 0 +
                  smallSigma0 (ws.getD (i + 1) 0) + ws.getD i 0)])
    (bigEndianWords block)

/-- One SHA-256 round: rotate the eight working variables. -/
def shaRound (st : List Nat) (kw : Nat × Nat) : List Nat :=
  match st with
  | [a, b, c, d, e, f, g, h] =>
      let t1 := w32 (h + bigSigma1 e + shaCh e f g + kw.1 + kw.2)
      let t2 := w32 (bigSigma0 a + shaMaj a b c)
      [w32 (t1 + t2), a, b, c, w32 (d + t1), e, f, g]
  | other => other

/-- Compress one 64-byte block into the hash state. -/
def shaCompress (h : List Nat) (block : List Nat) : List Nat :=
  let st := (shaK.zip (msgSchedule block)).foldl shaRound h
  (h.zip st).map (fun p => w32 (p.1 + p.2))

/-- Streaming SHA-256 state: current chaining value, the partial block
buffer (length < 64), and the total number of bytes absorbed. -/
structure Sha256State where
  hash : List Nat
  buf : List Nat
  len : Nat
deriving DecidableEq, Repr

/-- The state of a fresh `crypto.createHash('sha256')` object. -/
def sha256Init : Sha256State := ⟨shaH0, [], 0⟩

/-- Absorb a single byte, compressing when a full block accumulates. -/
def sha256Byte (s : Sha256State) (b : Nat) : Sha256State :=
  let buf := s.buf ++ [b % 256]
  if buf.length = 64 then ⟨shaCompress s.hash buf, [], s.len + 1⟩
  else ⟨s.hash, buf, s.len + 1⟩

/-- `hash.update(bytes)`: absorb a byte sequence. -/
def sha256Update (s : Sha256State) (bs : List Nat) : Sha256State :=
  bs.foldl sha256Byte s

/-- Big-endian bytes of a 32-bit word. -/
def wordBytes (w : Nat) : List Nat :=
  [w / 16777216 % 256, w / 65536 % 256, w / 256 % 256, w % 256]

/-- `hash.digest()`: append FIPS 180-4 padding (a `0x80` byte, zeros up to
56 mod 64, and the 64-bit big-endian bit length) and serialize the final
chaining value. -/
def sha256Final (s : Sha256State) : List Nat :=
  let z := (119 - s.len % 64) % 64
  let bitLen := s.len * 8
  let lenBytes := (List.range 8).map (fun i => bitLen / 2 ^ (8 * (7 - i)) % 256)
  ((sha256Update s ([128] ++ List.replicate z 0 ++ lenBytes)).hash).flatMap wordBytes

/-- Lowercase hex digit for a value below 16 (`0`–`9` then `a`–`f`),
exactly the alphabet Node's `digest('hex')` uses. -/
def hexDigitChar (n : Nat) : Char :=
  if n < 10 then Char.ofNat (48 + n) else Char.ofNat (87 + n)

/-- Two lowercase hex characters for one byte. -/
def byteToHex (b : Nat) : List Char := [hexDigitChar (b / 16 % 16), hexDigitChar (b % 16)]

/-- Render a byte list as a lowercase hexadecimal string. -/
def bytesToHex (bs : List Nat) : String := String.mk (bs.flatMap byteToHex)

/-- UTF-8 encoding of one character (how Node's `hash.update(string)`
turns the string into bytes). -/
def utf8Char (c : Char) : List Nat :=
  let n := c.toNat
  if n < 128 then [n]
  else if n < 2048 then [192 + n / 64, 128 + n % 64]
  else if n < 65536 then [224 + n / 4096, 128 + n / 64 % 64, 128 + n % 64]
  else [240 + n / 262144, 128 + n / 4096 % 64, 128 + n / 64 % 64, 128 + n % 64]

/-- UTF-8 bytes of a string. -/
def utf8Bytes (s : String) : List Nat := s.data.flatMap utf8Char

/-- One-shot SHA-256 of a byte list as a lowercase hex string. -/
def sha256Hex (bs : List Nat) : String :=
  bytesToHex (sha256Final (sha256Update sha256Init bs))

/-- The webhook challenge responder, `src/server.js` lines 94–101 (and
`src/unnamed/part_003` lines 250–254): one SHA-256 hash object updated
with the challenge code, the verification token and the endpoint URL in
that order, digested as hex. -/
def respondToChallenge (challengeCode verificationToken endpointUrl : String) : String :=
  bytesToHex (sha256Final
    (sha256Update
      (sha256Update
        (sha256Update sha256Init (utf8Bytes challengeCode))
        (utf8Bytes verificationToken))
      (utf8Bytes endpointUrl)))

/-- A character of the lowercase hexadecimal alphabet. -/
def isLowerHexChar (c : Char) : Bool :=
  (48 ≤ c.toNat && c.toNat ≤ 57) || (97 ≤ c.toNat && c.toNat ≤ 102)

/-! ## OAuth token cache (`getAppToken`, `src/server.js` lines 402–431)

Times are epoch milliseconds (`Date.now()`).  The outcome of the token
endpoint exchange, were one performed, is an explicit input.  The function
returns the token (or the thrown error), the updated cache, and the list of
upstream endpoints contacted. -/

/-- The upstream endpoints the server can contact, with the query
parameter each claim cares about. -/
inductive UpstreamCall where
  | tokenEndpoint : UpstreamCall
  | browseApi : Nat → UpstreamCall
  | findingApi : Nat → UpstreamCall
deriving DecidableEq, Repr

/-- A thrown JS `Error` as the sold-search path inspects it: `message`,
and the optional `status` / `body` fields some throw sites attach. -/
structure JsError where
  message : String
  status : Option Nat
  body : Option String
deriving DecidableEq, Repr

/-- `let tokenCache = { token: null, expiresAt: 0 }`. -/
structure TokenCache where
  token : Option String
  expiresAt : Nat
deriving DecidableEq, Repr

/-- What the token endpoint would reply: a 2xx JSON body with
`access_token` and `expires_in` (seconds), or a non-OK status with an
error body. -/
inductive OAuthResult where
  | ok : (accessToken : String) → (expiresIn : Nat) → OAuthResult
  | httpError : (status : Nat) → (body : String) → OAuthResult
deriving DecidableEq, Repr

/-- The cache-hit test `tokenCache.token && now < tokenCache.expiresAt`
(line 406). -/
def tokenCacheHit (cache : TokenCache) (now : Nat) : Bool :=
  truthyOpt cache.token && decide (now < cache.expiresAt)

/-- `getAppToken` (lines 404–431).  On a cache miss it contacts the token
endpoint; on success it stores the token with
`expiresAt = now + data.expires_in * 1000 * 0.9`, which is exactly
`now + expires_in * 900` milliseconds (source line 429; `1000 * 0.9` is
the exact factor `900`); on a non-OK reply it throws an `Error` that
carries neither a `status` nor a `body` field. -/
def getAppToken (cache : TokenCache) (now : Nat) (oauth : OAuthResult) :
    Except JsError String × TokenCache × List UpstreamCall :=
  if tokenCacheHit cache now then
    (Except.ok (cache.token.getD ""), cache, [])
  else
    match oauth with
    | OAuthResult.ok accessToken expiresIn =>
        (Except.ok accessToken,
         { token := some accessToken, expiresAt := now + expiresIn * 900 },
         [UpstreamCall.tokenEndpoint])
    | OAuthResult.httpError st body =>
        (Except.error ⟨"OAuth failed: " ++ toString st ++ " " ++ body, none, none⟩,
         cache,
         [UpstreamCall.tokenEndpoint])

/-! ## Sold-listings resolver (`/api/sold`, `src/server.js` lines 455–561) -/

/-- An item summary object of the Browse API.  The handler passes these
through unmodified (`res.json({ ...data, _source: 'browse' })`), so their
internal shape is opaque to this code path. -/
structure BrowseItem where
  raw : String
deriving DecidableEq, Repr

/-- The Browse API search reply: HTTP status, the `itemSummaries` array
(read on a 2xx reply) and the error body text (read otherwise). -/
structure BrowseReply where
  status : Nat
  items : List BrowseItem
  body : String
deriving DecidableEq, Repr

/-- A Finding API item as `fetchSoldFinding` reads it: each field is
`undefined` or the head of the nested singleton array. -/
structure FindingItem where
  title : Option String
  currentPrice : Option String
  endTime : Option String
  galleryURL : Option String
deriving DecidableEq, Repr

/-- The Finding API reply as the code inspects it:
`resp.ack[0]`, `resp.errorMessage[0].error[0].message[0]` and
`resp.searchResult[0].item`. -/
structure FindingReply where
  ack : Option String
  errMsg : Option String
  items : List FindingItem
deriving DecidableEq, Repr

/-- A Normalized Item as built by `fetchSoldFinding` (lines 518–530):
`price` holds the `value` string when present, `image` the `imageUrl`. -/
structure NormalizedItem where
  title : String
  price : Option String
  soldDate : Option String
  image : Option String
deriving DecidableEq, Repr

/-- The per-item mapping of lines 518–530. -/
def normalizeFindingItem (it : FindingItem) : NormalizedItem :=
  { title := jsStrOr it.title "Untitled",
    price := if truthyOpt it.currentPrice then some (it.currentPrice.getD "") else none,
    soldDate := it.endTime,
    image := it.galleryURL }

/-- The replies the external world would give to the three possible
upstream exchanges of one `/api/sold` request. -/
structure SoldWorld where
  now : Nat
  oauth : OAuthResult
  browse : BrowseReply
  finding : FindingReply
deriving DecidableEq, Repr

/-- The `limit` query parameter the code puts on both upstream requests:
`String(Math.min(Number(limit)||10, 50))` (lines 466 and 502). -/
def clampLimit (limit : Nat) : Nat := min (jsNumOr limit 10) 50

/-- `fetchSoldBrowse` (lines 455–485): acquire a token, issue the Browse
search with the clamped `limit`, return `itemSummaries` on a 2xx reply
and otherwise throw an `Error` with `status` and `body` set from the
reply. -/
def fetchSoldBrowse (cache : TokenCache) (w : SoldWorld) (limit : Nat) :
    Except JsError (List BrowseItem) × TokenCache × List UpstreamCall :=
  match getAppToken cache w.now w.oauth with
  | (Except.error e, c1, calls) => (Except.error e, c1, calls)
  | (Except.ok _, c1, calls) =>
      if 200 ≤ w.browse.status ∧ w.browse.status < 300 then
        (Except.ok w.browse.items, c1, calls ++ [UpstreamCall.browseApi (clampLimit limit)])
      else
        (Except.error ⟨"Browse error " ++ toString w.browse.status,
                       some w.browse.status, some w.browse.body⟩,
         c1, calls ++ [UpstreamCall.browseApi (clampLimit limit)])

/-- `fetchSoldFinding` (lines 487–533): throw before any network call when
`EBAY_APP_ID` is missing; issue the Finding request with the clamped
`entriesPerPage`; throw a status-502 error when `ack` is not `'Success'`;
otherwise map the items into Normalized Items. -/
def fetchSoldFinding (appId : String) (limit : Nat) (reply : FindingReply) :
    Except JsError (List NormalizedItem) × List UpstreamCall :=
  if appId = "" then
    (Except.error ⟨"Finding fallback not configured (missing EBAY_APP_ID).", none, none⟩, [])
  else if reply.ack ≠ some "Success" then
    (Except.error ⟨"Finding API error: " ++ jsStrOr reply.errMsg "Unknown error",
                   some 502, none⟩,
     [UpstreamCall.findingApi (clampLimit limit)])
  else
    (Except.ok (reply.items.map normalizeFindingItem),
     [UpstreamCall.findingApi (clampLimit limit)])

/-- The body-sniffing half of the auth-failure test (line 550): the regex
`/invalid_client|client authentication failed|OAuth App token could not be fetched/i`. -/
def invalidClientBody (body : String) : Bool :=
  let b := toLowerStr body
  strContains b "invalid_client" || strContains b "client authentication failed" ||
    strContains b "oauth app token could not be fetched"

/-- What the `/api/sold` handler sends back. -/
inductive SoldResponse where
  | validationError : SoldResponse
  | browseOk : List BrowseItem → SoldResponse
  | findingOk : List NormalizedItem → SoldResponse
  | failure : String → SoldResponse
deriving DecidableEq, Repr

/-- The `_source` tag of a successful response body. -/
def SoldResponse.source : SoldResponse → Option String
  | SoldResponse.browseOk _ => some "browse"
  | SoldResponse.findingOk _ => some "finding"
  | _ => none

/-- Number of items in the response body. -/
def SoldResponse.itemCount : SoldResponse → Nat
  | SoldResponse.browseOk l => l.length
  | SoldResponse.findingOk l => l.length
  | _ => 0

/-- The `/api/sold` handler (`src/server.js` lines 536–561): validate the
title, try the Browse path, on an auth-class failure
(`status === 401 || status === 403 || regex.test(err.body || '')`) fall
back to the Finding path, and otherwise surface the error with
`res.status(e.status || 500)` and `detail: e.body || e.message`.  Returns
(status × body, updated token cache, upstream calls made). -/
def soldHandler (appId : String) (cache : TokenCache) (w : SoldWorld)
    (title : String) (limit : Nat) :
    (Nat × SoldResponse) × TokenCache × List UpstreamCall :=
  if title = "" ∨ (jsTrim title).length = 0 then
    ((400, SoldResponse.validationError), cache, [])
  else
    match fetchSoldBrowse cache w limit with
    | (Except.ok items, c1, calls) => ((200, SoldResponse.browseOk items), c1, calls)
    | (Except.error err, c1, calls) =>
        let body := jsStrOr err.body ""
        let isAuth := err.status = some 401 || err.status = some 403 || invalidClientBody body
        if isAuth then
          match fetchSoldFinding appId limit w.finding with
          | (Except.ok items, calls2) =>
              ((200, SoldResponse.findingOk items), c1, calls ++ calls2)
          | (Except.error e2, calls2) =>
              ((jsNumOr (e2.status.getD 0) 500,
                SoldResponse.failure (jsStrOr e2.body e2.message)),
               c1, calls ++ calls2)
        else
          ((jsNumOr (err.status.getD 0) 500,
            SoldResponse.failure (jsStrOr err.body err.message)),
           c1, calls)

/-! ## Finding-API backoff (`axiosGetWithBackoff`, `src/unnamed/part_004` lines 41–76) -/

/-- The nested error object
`resp.data.findCompletedItemsResponse[0].errorMessage[0].error[0]` as the
backoff loop reads it, when present. -/
structure FindingErrorObj where
  errorId : Option String
  domain : Option String
  errMessage : Option String
deriving DecidableEq, Repr

/-- An axios reply (`validateStatus: () => true`, so every status is
returned, never thrown): the HTTP status and the Finding error object, if
the payload carries one. -/
structure AxiosResp where
  status : Nat
  findingErr : Option FindingErrorObj
deriving DecidableEq, Repr

/-- The rate-limit detection of lines 56–60:
`code === "10001" && domain.toLowerCase().includes("security")`. -/
def isRateLimitResp (r : AxiosResp) : Bool :=
  match r.findingErr with
  | none => false
  | some e =>
      e.errorId == some "10001" && strContains (toLowerStr (e.domain.getD "")) "security"

/-- The `detail` of the synthesized 429: `err?.message?.[0] || "eBay Finding API 10001"`. -/
def rateLimitDetail (r : AxiosResp) : String :=
  jsStrOr (r.findingErr.bind (fun e => e.errMessage)) "eBay Finding API 10001"

/-- What the backoff loop hands back to its caller. -/
inductive BackoffResult where
  | resp : AxiosResp → BackoffResult
  | rateLimited429 : String → BackoffResult
deriving DecidableEq, Repr

/-- The `for (let attempt = 1; attempt <= 3; ...)` loop body, structurally
recursive on the number of attempts still allowed after the current one
(`left = 3 - attempt`).  Returns the result, the number of the attempt it
returned on, and the slept delays in order. -/
def backoffGo (responses : Nat → AxiosResp) (finding : Bool) :
    Nat → Nat → Nat → List Nat → BackoffResult × Nat × List Nat
  | attempt, delay, left, delays =>
      let r := responses attempt
      if finding = false then (BackoffResult.resp r, attempt, delays.reverse)
      else if isRateLimitResp r then
        match left with
        | Nat.succ l => backoffGo responses finding (attempt + 1) (delay * 2) l (delay :: delays)
        | 0 => (BackoffResult.rateLimited429 (rateLimitDetail r), attempt, delays.reverse)
      else (BackoffResult.resp r, attempt, delays.reverse)

/-- `axiosGetWithBackoff` (lines 41–76): `responses n` is the reply the
`n`-th attempt would receive; non-Finding requests return the first reply
unconditionally; Finding requests back off on the Security-domain 10001
code with `delay = 1000` doubling each retry, at most 3 attempts. -/
def axiosGetWithBackoff (responses : Nat → AxiosResp) (finding : Bool) :
    BackoffResult × Nat × List Nat :=
  backoffGo responses finding 1 1000 2 []

/-! ## Deletion-notification buffer (`src/server.js` lines 564–583) -/

/-- One stored webhook entry (`{ ts, headers: {...}, body }`, lines
572–580). -/
structure NotificationEntry where
  ts : String
  contentType : Option String
  xEbaySignature : Option String
  userAgent : Option String
  body : String
deriving DecidableEq, Repr

/-- The POST branch of the webhook handler acting on
`recentDeletionNotifications`: `unshift` the entry, then `pop` when the
length exceeds 50 (lines 581–582). -/
def storeDeletionNotification (store : List NotificationEntry) (e : NotificationEntry) :
    List NotificationEntry :=
  let s := e :: store
  if 50 < s.length then s.dropLast else s

/-- The buffer contents after a sequence of webhook POSTs, starting from
the initial empty array. -/
def processDeletionPosts (es : List NotificationEntry) : List NotificationEntry :=
  es.foldl storeDeletionNotification []

/-! ## Idempotent deletion-notification handling
(`src/unnamed/part_004` lines 182–225) -/

/-- The request body fields the handler reads: `body.challenge`,
`body.metadata.notificationId`, `body.notificationId`. -/
structure DeletionBody where
  challenge : Option String
  metadataNotificationId : Option String
  notificationId : Option String
deriving DecidableEq, Repr

/-- One record pushed onto `deletionNotifications` (lines 214–222). -/
structure DeletionRecord where
  receivedAt : String
  id : Option String
  xEbaySignature : Option String
  contentType : Option String
  body : DeletionBody
deriving DecidableEq, Repr

/-- The mutable module state: the `deletionNotifications` array and the
`seenDeletionIds` set (modelled as a duplicate-free list). -/
structure DeletionState where
  deletionNotifications : List DeletionRecord
  seenDeletionIds : List String
deriving DecidableEq, Repr

/-- The three reply bodies the handler can send (all with HTTP 200). -/
inductive DeletionReply where
  | challengeEcho : String → DeletionReply
  | duplicate : DeletionReply
  | received : DeletionReply
deriving DecidableEq, Repr

/-- `req.body?.metadata?.notificationId || req.body?.notificationId || null`
(lines 204–207). -/
def effectiveDeletionId (b : DeletionBody) : Option String :=
  jsOrOptStr b.metadataNotificationId (jsOrOptStr b.notificationId none)

/-- The `POST /ebay/account-deletion` handler (lines 190–225): echo a
truthy `challenge`; answer `duplicate` without touching state when the id
was already seen; otherwise mark the id seen (when truthy) and push the
record. -/
def accountDeletionPost (st : DeletionState) (b : DeletionBody)
    (receivedAt : String) (sig ct : Option String) :
    DeletionState × Nat × DeletionReply :=
  if truthyOpt b.challenge then
    (st, 200, DeletionReply.challengeEcho (b.challenge.getD ""))
  else
    let id := effectiveDeletionId b
    if truthyOpt id && st.seenDeletionIds.contains (id.getD "") then
      (st, 200, DeletionReply.duplicate)
    else
      let seen2 := if truthyOpt id then id.getD "" :: st.seenDeletionIds
                   else st.seenDeletionIds
      ({ deletionNotifications :=
           st.deletionNotifications ++
             [{ receivedAt := receivedAt, id := id, xEbaySignature := sig,
                contentType := ct, body := b }],
         seenDeletionIds := seen2 },
       200, DeletionReply.received)

/-! ## Supporting lemmas -/

/-- Two successive `update` calls absorb the concatenation of their byte
sequences. -/
theorem sha256Update_append (s : Sha256State) (a b : List Nat) :
    sha256Update (sha256Update s a) b = sha256Update s (a ++ b) := by
  simp [sha256Update, List.foldl_append]

/-- UTF-8 encoding distributes over string concatenation. -/
theorem utf8Bytes_append (a b : String) :
    utf8Bytes (a ++ b) = utf8Bytes a ++ utf8Bytes b := by
  simp [utf8Bytes, String.data_append]

/-- Each hex digit emitted for a value below 16 is a lowercase hex
character. -/
theorem hexDigitChar_lower (n : Nat) (h : n < 16) :
    isLowerHexChar (hexDigitChar n) = true := by
  revert h; revert n; decide

/-- Every character of a hex rendering is lowercase hexadecimal. -/
theorem bytesToHex_lower (bs : List Nat) :
    (bytesToHex bs).data.all isLowerHexChar = true := by
  show (bs.flatMap byteToHex).all isLowerHexChar = true
  induction bs with
  | nil => rfl
  | cons b rest ih =>
      simp only [List.flatMap_cons, List.all_append, ih, Bool.and_true]
      simp [byteToHex, List.all_cons,
            hexDigitChar_lower _ (Nat.mod_lt _ (by norm_num)),
            hexDigitChar_lower _ (Nat.mod_lt _ (by norm_num))]

/-- **C3.** For all inputs `challengeCode`, `verificationToken`,
`endpointUrl`, `respondToChallenge` returns the SHA-256 digest of the
concatenation of exactly those three strings in that order with no
delimiter between them, rendered as a lowercase hexadecimal string. -/
theorem respondToChallenge_hashes_concat (c t u : String) :
    respondToChallenge c t u = sha256Hex (utf8Bytes (c ++ t ++ u)) ∧
    (respondToChallenge c t u).data.all isLowerHexChar = true := by
  constructor
  · show respondToChallenge c t u = bytesToHex (sha256Final (sha256Update sha256Init _))
    rw [respondToChallenge, sha256Update_append, sha256Update_append,
        utf8Bytes_append, utf8Bytes_append, List.append_assoc]
  · exact bytesToHex_lower _

set_option maxRecDepth 100000 in
/-- Sanity check of the SHA-256 embedding against the FIPS 180-4 test
vector for the message `"abc"`. -/
theorem sha256Hex_abc_vector :
    sha256Hex (utf8Bytes "abc") =
      "ba7816bf8f01cfea414140de5dae2223b00361a396177a9cb410ff61f20015ad" := by
  decide

/-- **C4.** When `acquireToken` (`getAppToken`) performs a credential
exchange that succeeds with a provider-declared lifetime of `life`
seconds, it stores the token with expiry `0.9 * life` seconds — that is,
`life * 900` milliseconds — after acquisition; in particular a token
acquired with declared lifetime 7200 seconds is treated as expired no
later than 6480 seconds (6 480 000 ms) after acquisition, and the next
call at or past that point contacts the token endpoint for a fresh
exchange rather than returning the cached value. -/
theorem getAppToken_expiry_margin (cache : TokenCache) (t0 t : Nat) (tok : String)
    (life : Nat) (o2 : OAuthResult) (hmiss : tokenCacheHit cache t0 = false) :
    (getAppToken cache t0 (OAuthResult.ok tok life)).2.1.expiresAt = t0 + life * 900 ∧
    (life = 7200 → t0 + 6480000 ≤ t →
      (getAppToken (getAppToken cache t0 (OAuthResult.ok tok life)).2.1 t o2).2.2 =
        [UpstreamCall.tokenEndpoint]) := by
  constructor
  · simp [getAppToken, hmiss]
  · intro hL ht
    subst hL
    have hcache : (getAppToken cache t0 (OAuthResult.ok tok 7200)).2.1 =
        ⟨some tok, t0 + 7200 * 900⟩ := by
      simp [getAppToken, hmiss]
    rw [hcache]
    have hexp : ¬ t < t0 + 7200 * 900 := by omega
    have hhit : tokenCacheHit ⟨some tok, t0 + 7200 * 900⟩ t = false := by
      simp [tokenCacheHit, hexp]
    cases o2 <;> simp [getAppToken, hhit]

/-- Witness for C4: from an empty cache at time 5, the stored expiry is
`5 + 7200 * 900` and a call at time `5 + 6480000` re-contacts the token
endpoint. -/
theorem getAppToken_expiry_margin_witness :
    (getAppToken ⟨none, 0⟩ 5 (OAuthResult.ok "T" 7200)).2.1.expiresAt = 5 + 7200 * 900 ∧
    (getAppToken (getAppToken ⟨none, 0⟩ 5 (OAuthResult.ok "T" 7200)).2.1 6480005
        (OAuthResult.httpError 400 "x")).2.2 = [UpstreamCall.tokenEndpoint] :=
  ⟨(getAppToken_expiry_margin ⟨none, 0⟩ 5 6480005 "T" 7200
      (OAuthResult.httpError 400 "x") (by decide)).1,
   (getAppToken_expiry_margin ⟨none, 0⟩ 5 6480005 "T" 7200
      (OAuthResult.httpError 400 "x") (by decide)).2 rfl (by decide)⟩

/-- **C5.** Token-cache invariant: on every call, `acquireToken`
(`getAppToken`) returns the cached token value without contacting the
token endpoint only if the current time is strictly before the cached
`expiresAt`; at or after `expiresAt` the cached value is never returned —
the call always contacts the token endpoint. -/
theorem tokenCache_cached_only_before_expiry (cache : TokenCache) (now : Nat)
    (oauth : OAuthResult) :
    ((getAppToken cache now oauth).2.2 = [] →
      now < cache.expiresAt ∧
      (getAppToken cache now oauth).1 = Except.ok (cache.token.getD "")) ∧
    (cache.expiresAt ≤ now →
      (getAppToken cache now oauth).2.2 = [UpstreamCall.tokenEndpoint]) := by
  by_cases hhit : tokenCacheHit cache now = true
  · have hlt : now < cache.expiresAt := by
      have := hhit
      simp [tokenCacheHit, Bool.and_eq_true] at this
      exact this.2
    refine ⟨fun _ => ⟨hlt, ?_⟩, fun hle => absurd hlt (by omega)⟩
    simp [getAppToken, hhit]
  · have hhit' : tokenCacheHit cache now = false := by
      simpa using hhit
    constructor
    · intro hcalls
      exfalso
      cases oauth <;> simp [getAppToken, hhit'] at hcalls
    · intro _
      cases oauth <;> simp [getAppToken, hhit']

/-- Witness for C5: a call at time 5 against a cache expiring at 100
returns the cached value (so 5 < 100), and a call at time 200 contacts
the token endpoint. -/
theorem tokenCache_cached_only_before_expiry_witness :
    ((5 : Nat) < 100 ∧
      (getAppToken ⟨some "t", 100⟩ 5 (OAuthResult.httpError 400 "x")).1 =
        Except.ok "t") ∧
    (getAppToken ⟨some "t", 100⟩ 200 (OAuthResult.httpError 400 "x")).2.2 =
      [UpstreamCall.tokenEndpoint] :=
  ⟨(tokenCache_cached_only_before_expiry ⟨some "t", 100⟩ 5
      (OAuthResult.httpError 400 "x")).1 (by decide),
   (tokenCache_cached_only_before_expiry ⟨some "t", 100⟩ 200
      (OAuthResult.httpError 400 "x")).2 (by decide)⟩

/-- `b || ''` on a defined string is that string. -/
theorem jsStrOr_some_empty (b : String) : jsStrOr (some b) "" = b := by
  by_cases h : b = "" <;> simp [jsStrOr, h]

/-- Characterization of `fetchSoldBrowse` when the token endpoint would
answer successfully: the reply items pass through on a 2xx status, any
other status becomes a thrown error carrying that status and body, the
token cache is refreshed exactly on a cache miss, and the Browse API is
contacted with the clamped limit. -/
theorem fetchSoldBrowse_spec (cache : TokenCache) (w : SoldWorld) (limit : Nat)
    (tok : String) (life : Nat) (hoauth : w.oauth = OAuthResult.ok tok life) :
    fetchSoldBrowse cache w limit =
      ((if 200 ≤ w.browse.status ∧ w.browse.status < 300 then Except.ok w.browse.items
        else Except.error ⟨"Browse error " ++ toString w.browse.status,
                           some w.browse.status, some w.browse.body⟩),
       (if tokenCacheHit cache w.now then cache
        else ⟨some tok, w.now + life * 900⟩),
       (if tokenCacheHit cache w.now then [] else [UpstreamCall.tokenEndpoint]) ++
         [UpstreamCall.browseApi (clampLimit limit)]) := by
  cases hhit : tokenCacheHit cache w.now <;>
    by_cases hok : 200 ≤ w.browse.status ∧ w.browse.status < 300 <;>
      simp [fetchSoldBrowse, getAppToken, hoauth, hhit, hok]

/-- An all-whitespace string trims to the empty string. -/
theorem jsTrim_of_all_whitespace (title : String)
    (h : title.data.all jsWhitespace = true) : (jsTrim title).length = 0 := by
  have hall : ∀ x ∈ title.data, jsWhitespace x = true := List.all_eq_true.mp h
  have hdrop : title.data.dropWhile jsWhitespace = [] :=
    List.dropWhile_eq_nil_iff.mpr hall
  simp [jsTrim, hdrop, String.length]

/-- **C6.** For every title that is empty or consists only of whitespace,
the `/api/sold` handler fails with the 400 validation error, no request
to any upstream or to the token endpoint is attempted, and the token
cache is untouched. -/
theorem soldHandler_validation_no_network (appId : String) (cache : TokenCache)
    (w : SoldWorld) (title : String) (limit : Nat)
    (h : title.data.all jsWhitespace = true) :
    (soldHandler appId cache w title limit).1 = (400, SoldResponse.validationError) ∧
    (soldHandler appId cache w title limit).2.2 = [] ∧
    (soldHandler appId cache w title limit).2.1 = cache := by
  have hlen : (jsTrim title).length = 0 := jsTrim_of_all_whitespace title h
  simp [soldHandler, hlen]

/-- Witness for C6: a whitespace-only title yields the 400 validation
error with an empty upstream-call list. -/
theorem soldHandler_validation_no_network_witness :
    (" \t ".data.all jsWhitespace = true) ∧
    (soldHandler "app" ⟨none, 0⟩
        ⟨0, OAuthResult.httpError 400 "x", ⟨500, [], "b"⟩, ⟨none, none, []⟩⟩
        " \t " 10).1 = (400, SoldResponse.validationError) ∧
    (soldHandler "app" ⟨none, 0⟩
        ⟨0, OAuthResult.httpError 400 "x", ⟨500, [], "b"⟩, ⟨none, none, []⟩⟩
        " \t " 10).2.2 = [] :=
  ⟨by decide,
   (soldHandler_validation_no_network "app" ⟨none, 0⟩
      ⟨0, OAuthResult.httpError 400 "x", ⟨500, [], "b"⟩, ⟨none, none, []⟩⟩
      " \t " 10 (by decide)).1,
   (soldHandler_validation_no_network "app" ⟨none, 0⟩
      ⟨0, OAuthResult.httpError 400 "x", ⟨500, [], "b"⟩, ⟨none, none, []⟩⟩
      " \t " 10 (by decide)).2.1⟩

/-- A title whose trim is non-empty falsifies the validation guard. -/
theorem validation_guard_false (title : String) (htitle : (jsTrim title).length ≠ 0) :
    ¬ (title = "" ∨ (jsTrim title).length = 0) := by
  rintro (rfl | hlen)
  · exact htitle (by decide)
  · exact htitle hlen

/-- **C1.** For every non-empty title and limit, if the primary (Browse)
upstream attempt fails with an authentication-class error (HTTP status
401 or 403, or a response body recognized as an invalid-client message),
the `/api/sold` handler attempts the secondary (Finding) upstream instead
and, when the secondary succeeds, returns a 200 Search Result tagged with
the secondary source (`finding`) and no error. -/
theorem soldHandler_auth_fallback (appId : String) (cache : TokenCache) (w : SoldWorld)
    (title : String) (limit : Nat) (tok : String) (life : Nat)
    (htitle : (jsTrim title).length ≠ 0)
    (hoauth : w.oauth = OAuthResult.ok tok life)
    (hfail : ¬ (200 ≤ w.browse.status ∧ w.browse.status < 300))
    (hauth : w.browse.status = 401 ∨ w.browse.status = 403 ∨
             invalidClientBody w.browse.body = true)
    (happ : appId ≠ "") (hack : w.finding.ack = some "Success") :
    (soldHandler appId cache w title limit).1 =
      (200, SoldResponse.findingOk (w.finding.items.map normalizeFindingItem)) ∧
    ((soldHandler appId cache w title limit).1.2).source = some "finding" ∧
    UpstreamCall.findingApi (clampLimit limit) ∈
      (soldHandler appId cache w title limit).2.2 := by
  have hcond := validation_guard_false title htitle
  rcases hauth with h1 | h3 | hb
  · refine ⟨?_, ?_, ?_⟩ <;> cases hhit : tokenCacheHit cache w.now <;>
      simp [soldHandler, fetchSoldBrowse, getAppToken, fetchSoldFinding,
            SoldResponse.source, hoauth, hcond, hfail, happ, hack, hhit, h1]
  · refine ⟨?_, ?_, ?_⟩ <;> cases hhit : tokenCacheHit cache w.now <;>
      simp [soldHandler, fetchSoldBrowse, getAppToken, fetchSoldFinding,
            SoldResponse.source, hoauth, hcond, hfail, happ, hack, hhit, h3]
  · refine ⟨?_, ?_, ?_⟩ <;> cases hhit : tokenCacheHit cache w.now <;>
      simp [soldHandler, fetchSoldBrowse, getAppToken, fetchSoldFinding,
            SoldResponse.source, hoauth, hcond, hfail, happ, hack, hhit,
            jsStrOr_some_empty, hb]

/-- Witness for C1: with a Browse 401 and a working Finding upstream, the
handler returns the Finding-tagged result and contacts the Finding API. -/
theorem soldHandler_auth_fallback_witness :
    (soldHandler "app" ⟨none, 0⟩
        ⟨0, OAuthResult.ok "T" 7200, ⟨401, [], "unauthorized"⟩,
         ⟨some "Success", none, [⟨some "Hulk 181", some "99.5", some "2024-01-01", none⟩]⟩⟩
        "Hulk 181" 10).1 =
      (200, SoldResponse.findingOk
        [⟨"Hulk 181", some "99.5", some "2024-01-01", none⟩]) ∧
    UpstreamCall.findingApi (clampLimit 10) ∈
      (soldHandler "app" ⟨none, 0⟩
        ⟨0, OAuthResult.ok "T" 7200, ⟨401, [], "unauthorized"⟩,
         ⟨some "Success", none, [⟨some "Hulk 181", some "99.5", some "2024-01-01", none⟩]⟩⟩
        "Hulk 181" 10).2.2 :=
  ⟨((soldHandler_auth_fallback "app" ⟨none, 0⟩
      ⟨0, OAuthResult.ok "T" 7200, ⟨401, [], "unauthorized"⟩,
       ⟨some "Success", none, [⟨some "Hulk 181", some "99.5", some "2024-01-01", none⟩]⟩⟩
      "Hulk 181" 10 "T" 7200 (by decide) rfl (by decide) (Or.inl rfl) (by decide)
      rfl).1),
   ((soldHandler_auth_fallback "app" ⟨none, 0⟩
      ⟨0, OAuthResult.ok "T" 7200, ⟨401, [], "unauthorized"⟩,
       ⟨some "Success", none, [⟨some "Hulk 181", some "99.5", some "2024-01-01", none⟩]⟩⟩
      "Hulk 181" 10 "T" 7200 (by decide) rfl (by decide) (Or.inl rfl) (by decide)
      rfl).2.2)⟩

/-- **C2.** For every non-empty title and limit, if the primary (Browse)
upstream attempt fails with an error that is not authentication-class
(for example an HTTP 500), the `/api/sold` handler propagates that
failure to the caller — the response carries the upstream status and a
failure body — without issuing any request to the secondary (Finding)
upstream. -/
theorem soldHandler_nonauth_propagates (appId : String) (cache : TokenCache)
    (w : SoldWorld) (title : String) (limit : Nat) (tok : String) (life : Nat)
    (htitle : (jsTrim title).length ≠ 0)
    (hoauth : w.oauth = OAuthResult.ok tok life)
    (hfail : ¬ (200 ≤ w.browse.status ∧ w.browse.status < 300))
    (hpos : 0 < w.browse.status)
    (hn1 : w.browse.status ≠ 401) (hn3 : w.browse.status ≠ 403)
    (hbody : invalidClientBody w.browse.body = false) :
    (soldHandler appId cache w title limit).1.1 = w.browse.status ∧
    (soldHandler appId cache w title limit).1.2 =
      SoldResponse.failure
        (jsStrOr (some w.browse.body) ("Browse error " ++ toString w.browse.status)) ∧
    ∀ n, UpstreamCall.findingApi n ∉ (soldHandler appId cache w title limit).2.2 := by
  have hcond := validation_guard_false title htitle
  have hpos' : w.browse.status ≠ 0 := by omega
  refine ⟨?_, ?_, ?_⟩ <;> cases hhit : tokenCacheHit cache w.now <;>
    simp [soldHandler, fetchSoldBrowse, getAppToken, hoauth, hcond, hfail,
          hn1, hn3, hbody, jsStrOr_some_empty, jsNumOr, hpos', hhit]

/-- Witness for C2: a Browse 500 with a plain error body surfaces as a
500 failure and the Finding API is never contacted. -/
theorem soldHandler_nonauth_propagates_witness :
    (soldHandler "app" ⟨none, 0⟩
        ⟨0, OAuthResult.ok "T" 7200, ⟨500, [], "boom"⟩, ⟨some "Success", none, []⟩⟩
        "Hulk 181" 10).1.1 = 500 ∧
    ∀ n, UpstreamCall.findingApi n ∉
      (soldHandler "app" ⟨none, 0⟩
        ⟨0, OAuthResult.ok "T" 7200, ⟨500, [], "boom"⟩, ⟨some "Success", none, []⟩⟩
        "Hulk 181" 10).2.2 :=
  ⟨((soldHandler_nonauth_propagates "app" ⟨none, 0⟩
      ⟨0, OAuthResult.ok "T" 7200, ⟨500, [], "boom"⟩, ⟨some "Success", none, []⟩⟩
      "Hulk 181" 10 "T" 7200 (by decide) rfl (by decide) (by decide) (by decide)
      (by decide) (by decide)).1),
   ((soldHandler_nonauth_propagates "app" ⟨none, 0⟩
      ⟨0, OAuthResult.ok "T" 7200, ⟨500, [], "boom"⟩, ⟨some "Success", none, []⟩⟩
      "Hulk 181" 10 "T" 7200 (by decide) rfl (by decide) (by decide) (by decide)
      (by decide) (by decide)).2.2)⟩

/-- For a caller limit in the valid range the clamped upstream parameter
is the minimum of the caller's limit and the provider maximum 50. -/
theorem clampLimit_eq (limit : Nat) (h1 : 1 ≤ limit) :
    clampLimit limit = min limit 50 := by
  have : limit ≠ 0 := by omega
  simp [clampLimit, jsNumOr, this]

/-- Every upstream call `fetchSoldBrowse` makes is either the token
endpoint or the Browse API with the clamped limit. -/
theorem fetchSoldBrowse_calls_shape (cache : TokenCache) (w : SoldWorld) (limit : Nat) :
    ∀ c ∈ (fetchSoldBrowse cache w limit).2.2,
      c = UpstreamCall.tokenEndpoint ∨ c = UpstreamCall.browseApi (clampLimit limit) := by
  intro c hc
  cases ho : w.oauth <;> cases hhit : tokenCacheHit cache w.now <;>
    by_cases hok : 200 ≤ w.browse.status ∧ w.browse.status < 300 <;>
      simp [fetchSoldBrowse, getAppToken, ho, hhit, hok] at hc <;> tauto

/-- Every upstream call `fetchSoldFinding` makes is the Finding API with
the clamped entries-per-page. -/
theorem fetchSoldFinding_calls_shape (appId : String) (limit : Nat) (reply : FindingReply) :
    ∀ c ∈ (fetchSoldFinding appId limit reply).2,
      c = UpstreamCall.findingApi (clampLimit limit) := by
  intro c hc
  by_cases happ : appId = "" <;> by_cases hack : reply.ack = some "Success" <;>
    simp [fetchSoldFinding, happ, hack] at hc <;> tauto

/-- A successful `fetchSoldBrowse` returns exactly the reply's item
summaries. -/
theorem fetchSoldBrowse_ok_items (cache : TokenCache) (w : SoldWorld) (limit : Nat)
    (l : List BrowseItem) (h : (fetchSoldBrowse cache w limit).1 = Except.ok l) :
    l = w.browse.items := by
  cases ho : w.oauth <;> cases hhit : tokenCacheHit cache w.now <;>
    by_cases hok : 200 ≤ w.browse.status ∧ w.browse.status < 300 <;>
      simp [fetchSoldBrowse, getAppToken, ho, hhit, hok] at h <;> simp_all

/-- A successful `fetchSoldFinding` returns exactly the normalized reply
items. -/
theorem fetchSoldFinding_ok_items (appId : String) (limit : Nat) (reply : FindingReply)
    (l : List NormalizedItem) (h : (fetchSoldFinding appId limit reply).1 = Except.ok l) :
    l = reply.items.map normalizeFindingItem := by
  by_cases happ : appId = "" <;> by_cases hack : reply.ack = some "Success" <;>
    simp [fetchSoldFinding, happ, hack] at h <;> simp_all

/-- Every upstream call the `/api/sold` handler makes is the token
endpoint, the Browse API with the clamped limit, or the Finding API with
the clamped limit. -/
theorem soldHandler_calls_shape (appId : String) (cache : TokenCache) (w : SoldWorld)
    (title : String) (limit : Nat) :
    ∀ c ∈ (soldHandler appId cache w title limit).2.2,
      c = UpstreamCall.tokenEndpoint ∨ c = UpstreamCall.browseApi (clampLimit limit) ∨
        c = UpstreamCall.findingApi (clampLimit limit) := by
  intro c hc
  unfold soldHandler at hc
  split at hc
  · simp at hc
  · split at hc
    · next items c1 calls heq =>
        have hmem : c ∈ (fetchSoldBrowse cache w limit).2.2 := by rw [heq]; exact hc
        rcases fetchSoldBrowse_calls_shape cache w limit c hmem with h | h <;> tauto
    · next err c1 calls heq =>
        split at hc
        · next items2 calls2 heq2 =>
            dsimp only at hc
            split at hc
            · rcases List.mem_append.mp hc with hl | hr
              · have hmem : c ∈ (fetchSoldBrowse cache w limit).2.2 := by
                  rw [heq]; exact hl
                rcases fetchSoldBrowse_calls_shape cache w limit c hmem with h | h <;> tauto
              · have hmem : c ∈ (fetchSoldFinding appId limit w.finding).2 := by
                  rw [heq2]; exact hr
                have := fetchSoldFinding_calls_shape appId limit w.finding c hmem
                tauto
            · have hmem : c ∈ (fetchSoldBrowse cache w limit).2.2 := by rw [heq]; exact hc
              rcases fetchSoldBrowse_calls_shape cache w limit c hmem with h | h <;> tauto
        · next e2 calls2 heq2 =>
            dsimp only at hc
            split at hc
            · rcases List.mem_append.mp hc with hl | hr
              · have hmem : c ∈ (fetchSoldBrowse cache w limit).2.2 := by
                  rw [heq]; exact hl
                rcases fetchSoldBrowse_calls_shape cache w limit c hmem with h | h <;> tauto
              · have hmem : c ∈ (fetchSoldFinding appId limit w.finding).2 := by
                  rw [heq2]; exact hr
                have := fetchSoldFinding_calls_shape appId limit w.finding c hmem
                tauto
            · have hmem : c ∈ (fetchSoldBrowse cache w limit).2.2 := by rw [heq]; exact hc
              rcases fetchSoldBrowse_calls_shape cache w limit c hmem with h | h <;> tauto

/-- The `/api/sold` response body is an item-free body, the Browse
passthrough of the reply's item summaries, or the normalized Finding
items. -/
theorem soldHandler_resp_shape (appId : String) (cache : TokenCache) (w : SoldWorld)
    (title : String) (limit : Nat) :
    (soldHandler appId cache w title limit).1.2.itemCount = 0 ∨
    (soldHandler appId cache w title limit).1.2 = SoldResponse.browseOk w.browse.items ∨
    (soldHandler appId cache w title limit).1.2 =
      SoldResponse.findingOk (w.finding.items.map normalizeFindingItem) := by
  unfold soldHandler
  split
  · left; rfl
  · split
    · next items c1 calls heq =>
        right; left
        have hi : (fetchSoldBrowse cache w limit).1 = Except.ok items := by rw [heq]
        rw [fetchSoldBrowse_ok_items cache w limit items hi]
    · next err c1 calls heq =>
        split
        · next items2 calls2 heq2 =>
            dsimp only
            split
            · right; right
              have hi : (fetchSoldFinding appId limit w.finding).1 = Except.ok items2 := by
                rw [heq2]
              rw [fetchSoldFinding_ok_items appId limit w.finding items2 hi]
            · left; rfl
        · next e2 calls2 heq2 =>
            dsimp only
            split
            · left; rfl
            · left; rfl

/-- **C7.** For every non-empty title and every integer limit in `[1, 50]`,
the `/api/sold` handler requests at most the provider maximum of 50
entries — the limit parameter sent to either upstream is the minimum of
the caller's limit and 50 — and, provided each upstream returns no more
entries than requested, returns a result whose items sequence has length
at most `limit`. -/
theorem soldHandler_limit_clamp (appId : String) (cache : TokenCache) (w : SoldWorld)
    (title : String) (limit : Nat)
    (htitle : (jsTrim title).length ≠ 0)
    (h1 : 1 ≤ limit) (h50 : limit ≤ 50)
    (hbrowse : w.browse.items.length ≤ min limit 50)
    (hfinding : w.finding.items.length ≤ min limit 50) :
    (∀ n, UpstreamCall.browseApi n ∈ (soldHandler appId cache w title limit).2.2 →
        n = min limit 50) ∧
    (∀ n, UpstreamCall.findingApi n ∈ (soldHandler appId cache w title limit).2.2 →
        n = min limit 50) ∧
    (soldHandler appId cache w title limit).1.2.itemCount ≤ limit := by
  have hclamp : clampLimit limit = min limit 50 := clampLimit_eq limit h1
  have hminle : min limit 50 ≤ limit := Nat.min_le_left limit 50
  refine ⟨?_, ?_, ?_⟩
  · intro n hn
    rcases soldHandler_calls_shape appId cache w title limit _ hn with h | h | h <;>
      simp_all
  · intro n hn
    rcases soldHandler_calls_shape appId cache w title limit _ hn with h | h | h <;>
      simp_all
  · rcases soldHandler_resp_shape appId cache w title limit with h0 | hB | hF
    · omega
    · rw [hB]
      simp only [SoldResponse.itemCount]
      omega
    · rw [hF]
      simp only [SoldResponse.itemCount, List.length_map]
      omega

/-- Witness for C7: a concrete request with limit 5 against compliant
upstream replies sends the clamped parameter 5 and returns at most 5
items. -/
theorem soldHandler_limit_clamp_witness :
    (∀ n, UpstreamCall.browseApi n ∈
        (soldHandler "app" ⟨none, 0⟩
          ⟨0, OAuthResult.ok "T" 7200, ⟨200, [⟨"x"⟩], ""⟩, ⟨some "Success", none, []⟩⟩
          "Hulk" 5).2.2 → n = min 5 50) ∧
    (soldHandler "app" ⟨none, 0⟩
        ⟨0, OAuthResult.ok "T" 7200, ⟨200, [⟨"x"⟩], ""⟩, ⟨some "Success", none, []⟩⟩
        "Hulk" 5).1.2.itemCount ≤ 5 :=
  ⟨(soldHandler_limit_clamp "app" ⟨none, 0⟩
      ⟨0, OAuthResult.ok "T" 7200, ⟨200, [⟨"x"⟩], ""⟩, ⟨some "Success", none, []⟩⟩
      "Hulk" 5 (by decide) (by decide) (by decide) (by decide) (by decide)).1,
   (soldHandler_limit_clamp "app" ⟨none, 0⟩
      ⟨0, OAuthResult.ok "T" 7200, ⟨200, [⟨"x"⟩], ""⟩, ⟨some "Success", none, []⟩⟩
      "Hulk" 5 (by decide) (by decide) (by decide) (by decide) (by decide)).2.2⟩

/-- **C8.** The only retried upstream call is the rate-limit case: a
non-Finding request returns its first reply unconditionally; a Finding
request whose reply is not the Security-domain 10001 rate-limit error is
returned to the caller on the first occurrence without retry; a
rate-limited Finding request is retried up to a total of 3 attempts with
a doubling delay starting at 1 second (1000 ms, then 2000 ms), returning
the first non-rate-limited reply, and after the third rate-limited
attempt a 429 result is returned. -/
theorem axiosGetWithBackoff_retry_spec (responses : Nat → AxiosResp) (finding : Bool) :
    axiosGetWithBackoff responses finding =
      (if finding = false then (BackoffResult.resp (responses 1), 1, ([] : List Nat))
       else if isRateLimitResp (responses 1) = false then
         (BackoffResult.resp (responses 1), 1, [])
       else if isRateLimitResp (responses 2) = false then
         (BackoffResult.resp (responses 2), 2, [1000])
       else if isRateLimitResp (responses 3) = false then
         (BackoffResult.resp (responses 3), 3, [1000, 2000])
       else (BackoffResult.rateLimited429 (rateLimitDetail (responses 3)), 3,
             [1000, 2000])) := by
  cases finding
  · simp [axiosGetWithBackoff, backoffGo]
  · cases h1 : isRateLimitResp (responses 1) <;>
      cases h2 : isRateLimitResp (responses 2) <;>
        cases h3 : isRateLimitResp (responses 3) <;>
          simp [axiosGetWithBackoff, backoffGo, h1, h2, h3]

/-- Pushing one entry keeps the buffer within the 50-entry bound. -/
theorem storeDeletionNotification_length (store : List NotificationEntry)
    (e : NotificationEntry) (h : store.length ≤ 50) :
    (storeDeletionNotification store e).length ≤ 50 := by
  simp only [storeDeletionNotification]
  split
  · simp only [List.length_dropLast, List.length_cons]
    omega
  · next hcond =>
      simp only [List.length_cons] at hcond ⊢
      omega

/-- The 50-entry bound is preserved by any sequence of stores. -/
theorem foldl_store_length_le (es : List NotificationEntry) :
    ∀ init : List NotificationEntry, init.length ≤ 50 →
      (es.foldl storeDeletionNotification init).length ≤ 50 := by
  induction es with
  | nil => intro init h; simpa using h
  | cons e rest ih =>
      intro init h
      exact ih _ (storeDeletionNotification_length init e h)

/-- **C9.** Deletion-notification buffer invariant: after any sequence of
webhook POSTs the in-memory store holds at most 50 entries; each newly
stored notification is placed at the front of the sequence; and when the
bound is exceeded (the store already holds 50 entries) the oldest — last —
entry is discarded. -/
theorem recentDeletionNotifications_invariant (es : List NotificationEntry)
    (store : List NotificationEntry) (e : NotificationEntry) :
    (processDeletionPosts es).length ≤ 50 ∧
    (storeDeletionNotification store e).head? = some e ∧
    storeDeletionNotification store e =
      (if 50 ≤ store.length then (e :: store).dropLast else e :: store) := by
  refine ⟨foldl_store_length_le es [] (by simp), ?_, ?_⟩
  · simp only [storeDeletionNotification]
    split
    · next hcond =>
        cases store with
        | nil => simp at hcond
        | cons s rest => simp [List.dropLast]
    · simp
  · by_cases h50 : 50 ≤ store.length
    · have h' : 50 < (e :: store).length := by simp only [List.length_cons]; omega
      rw [if_pos h50]
      simp only [storeDeletionNotification]
      rw [if_pos h']
    · have h' : ¬ 50 < (e :: store).length := by simp only [List.length_cons]; omega
      rw [if_neg h50]
      simp only [storeDeletionNotification]
      rw [if_neg h']

/-- **C10.** Deletion-notification handling is idempotent per notification
id: delivering a non-challenge notification whose effective
`notificationId` is truthy stores it at most once — a second delivery of
the same id leaves the state (in particular the stored notification list)
unchanged and is acknowledged with a 200 `duplicate` response instead of
being appended again; when the id was not seen before, the first delivery
appends the record exactly once. -/
theorem accountDeletionPost_idempotent (st : DeletionState) (b : DeletionBody)
    (t1 t2 : String) (s1 s2 c1 c2 : Option String)
    (hch : truthyOpt b.challenge = false)
    (hid : truthyOpt (effectiveDeletionId b) = true) :
    (accountDeletionPost (accountDeletionPost st b t1 s1 c1).1 b t2 s2 c2).1 =
      (accountDeletionPost st b t1 s1 c1).1 ∧
    (accountDeletionPost (accountDeletionPost st b t1 s1 c1).1 b t2 s2 c2).2 =
      (200, DeletionReply.duplicate) ∧
    (st.seenDeletionIds.contains ((effectiveDeletionId b).getD "") = false →
      (accountDeletionPost st b t1 s1 c1).1.deletionNotifications =
        st.deletionNotifications ++ [⟨t1, effectiveDeletionId b, s1, c1, b⟩]) := by
  by_cases hseen : st.seenDeletionIds.contains ((effectiveDeletionId b).getD "") = true
  · have hmem : (effectiveDeletionId b).getD "" ∈ st.seenDeletionIds := by
      simpa using hseen
    have hst1 : (accountDeletionPost st b t1 s1 c1).1 = st := by
      simp [accountDeletionPost, hch, hid, hmem]
    refine ⟨?_, ?_, fun hfalse => absurd hmem (by simpa using hfalse)⟩ <;>
      rw [hst1] <;> simp [accountDeletionPost, hch, hid, hmem]
  · have hnot : (effectiveDeletionId b).getD "" ∉ st.seenDeletionIds := by
      simpa using hseen
    have hst1 : (accountDeletionPost st b t1 s1 c1).1 =
        ⟨st.deletionNotifications ++ [⟨t1, effectiveDeletionId b, s1, c1, b⟩],
         (effectiveDeletionId b).getD "" :: st.seenDeletionIds⟩ := by
      simp [accountDeletionPost, hch, hid, hnot]
    refine ⟨?_, ?_, fun _ => by rw [hst1]⟩ <;>
      rw [hst1] <;> simp [accountDeletionPost, hch, hid]

/-- Witness for C10: redelivering the notification `"n1"` to a fresh
state leaves the state of the first delivery unchanged and answers
`duplicate`. -/
theorem accountDeletionPost_idempotent_witness :
    (accountDeletionPost
        (accountDeletionPost ⟨[], []⟩ ⟨none, none, some "n1"⟩ "t1" none none).1
        ⟨none, none, some "n1"⟩ "t2" none none).1 =
      (accountDeletionPost ⟨[], []⟩ ⟨none, none, some "n1"⟩ "t1" none none).1 ∧
    (accountDeletionPost
        (accountDeletionPost ⟨[], []⟩ ⟨none, none, some "n1"⟩ "t1" none none).1
        ⟨none, none, some "n1"⟩ "t2" none none).2 = (200, DeletionReply.duplicate) :=
  ⟨(accountDeletionPost_idempotent ⟨[], []⟩ ⟨none, none, some "n1"⟩ "t1" "t2"
      none none none none (by decide) (by decide)).1,
   (accountDeletionPost_idempotent ⟨[], []⟩ ⟨none, none, some "n1"⟩ "t1" "t2"
      none none none none (by decide) (by decide)).2.1⟩

end ComicsSold
